import Mathlib

/-!
Verification development for the iotedge aziot-edged daemon entry point
(src/edgelet/aziot-edged/src/main.rs).

The Rust source is shallowly embedded as follows.

* Rust std::time::Duration values are modelled as total nanosecond counts
  (a Nat); Duration comparison in Rust is comparison of total length, which
  is exactly Nat comparison on nanoseconds.
* chrono NaiveTime::parse_from_str with the "%H:%M" format string is
  modelled on lists of characters: each numeric field first skips leading
  whitespace, then consumes one or two digits (the window is limited to two
  characters before the digit scan, as in chrono scan::number with width 2),
  the literal colon is matched exactly, trailing input is an error, and the
  hour and minute must be in range (hour below 24, minute below 60).
  Whitespace is modelled with Char.isWhitespace.
* The async run() function is modelled as a pure function from an
  environment (the results of all external collaborators, plus a schedule
  oracle for the tokio select race between the health-supervision watchdog
  and the image garbage collection loop, plus the sequence of values read
  from the shared task counter) to a run outcome together with a trace of
  the externally visible events, in program order.
* std::process::exit inside run is a distinguished outcome, separate from
  returning an error.
* The shutdown drain loop polls the task counter; sleeping is modelled by
  the milliseconds accumulated in wait_time, with the counter value of the
  k-th load given by the environment.
-/

namespace Edged

/-- Rust Duration::from_secs, as total nanoseconds. -/
def Duration.from_secs (s : Nat) : Nat := s * 1000000000

/-- const DEFAULT_CLEANUP_TIME: &str = "00:00"; -/
def DEFAULT_CLEANUP_TIME : String := "00:00"

/-- const DEFAULT_RECURRENCE_IN_SECS: u64 = 60 * 60 * 24; -/
def DEFAULT_RECURRENCE_IN_SECS : Nat := 60 * 60 * 24

/-- const DEFAULT_MIN_AGE_IN_SECS: u64 = 60 * 60 * 24 * 7; -/
def DEFAULT_MIN_AGE_IN_SECS : Nat := 60 * 60 * 24 * 7

/-- The numeric value of a run of ASCII digit characters
(chrono scan::number accumulates digits most significant first). -/
def digitsVal (ds : List Char) : Nat := ds.foldl (fun n c => 10 * n + (c.toNat - 48)) 0

/-- chrono scan::number with minimum one digit and the given maximum width:
the input is first limited to a window of that many characters, the leading
digits of the window are consumed, and at least one digit is required. -/
def scan_number (width : Nat) (s : List Char) : Option (Nat × List Char) :=
  let window := s.take width
  let ds := window.takeWhile Char.isDigit
  if ds.isEmpty then none else some (digitsVal ds, s.drop ds.length)

/-- The "%M" step of the chrono parse, given the hour already read: trim
whitespace, scan one or two digits, require the input to be exhausted and
the fields to be in range (chrono rejects the parse if any remains or a
field is out of range). -/
def parse_minute_rest (h : Nat) (r2 : List Char) : Option (Nat × Nat) :=
  let s2 := r2.dropWhile Char.isWhitespace
  match scan_number 2 s2 with
  | none => none
  | some (m, r3) =>
    if r3.isEmpty = true ∧ h < 24 ∧ m < 60 then some (h, m) else none

/-- chrono NaiveTime::parse_from_str with format "%H:%M": whitespace-trimmed
one-or-two-digit hour, a literal colon, then the minute step. -/
def parse_hm (s : List Char) : Option (Nat × Nat) :=
  let s1 := s.dropWhile Char.isWhitespace
  match scan_number 2 s1 with
  | none => none
  | some (h, r1) =>
    match r1 with
    | [] => none
    | c :: r2 => if c = ':' then parse_minute_rest h r2 else none

/-- edgelet_settings ImagePruneSettings: the image garbage collection policy.
Durations are nanosecond counts. -/
structure ImagePruneSettings where
  cleanup_recurrence : Option Nat
  image_age_cleanup_threshold : Option Nat
  cleanup_time : Option String
  is_enabled : Bool
deriving DecidableEq

/-- ImagePruneSettings::new, with the argument order of the Rust constructor. -/
def ImagePruneSettings.new (recurrence min_age : Option Nat) (ct : Option String)
    (enabled : Bool) : ImagePruneSettings :=
  ⟨recurrence, min_age, ct, enabled⟩

/-- Modelled from the spec: the error type of aziot-edged (error.rs is not
under src/). The spec requires a designated informational reprovisioned
outcome whose exit code is distinct from every other (generic) failure code,
plus constructors corresponding to the EdgedError::settings_err,
EdgedError::from_err and EdgedError::new calls visible in main.rs. The
concrete numeric codes are representative; the claims only use the fixed
configuration code and the distinctness of the reprovisioned code. -/
inductive EdgedError where
  | settings_err (msg : String)
  | from_err (ctx : String) (cause : String)
  | new (msg : String)
  | reprovisioned
deriving DecidableEq

deriving instance DecidableEq for Except

/-- Modelled from the spec: the stable error-kind to exit-code mapping; the
reprovisioned outcome has its own dedicated code, every other error maps to
a generic failure code. -/
def EdgedError.exit_code : EdgedError → Int
  | EdgedError.reprovisioned => 3
  | _ => 1

/-- exitcode::CONFIG from the exitcode crate (the fixed configuration-error
process exit code). -/
def exitcode_CONFIG : Int := 78

/-- Rust Result::is_ok. -/
def is_ok {ε α : Type} : Except ε α → Bool
  | Except.ok _ => true
  | Except.error _ => false

/-- check_settings_and_populate from main.rs. The first component collects
the error lines the function logs, the second is its return value. The
returned cleanup time is the outer binding initialised to the default: the
value read from the input settings is bound in the inner scope of the
validation block and is not the binding used at the return. -/
def check_settings_and_populate (settings : ImagePruneSettings) :
    List String × Except EdgedError ImagePruneSettings :=
  let recurrence := Duration.from_secs DEFAULT_RECURRENCE_IN_SECS
  let cleanup_time := DEFAULT_CLEANUP_TIME
  let min_age := Duration.from_secs DEFAULT_MIN_AGE_IN_SECS
  let recurrence := (settings.cleanup_recurrence).getD recurrence
  if settings.cleanup_recurrence.isSome = true ∧
      recurrence < Duration.from_secs (60 * 60 * 24) then
    (["invalid settings provided in config: cleanup recurrence cannot be less than 1 day."],
     Except.error (EdgedError.from_err "invalid settings provided in config"
       "cleanup recurrence cannot be less than 1 day"))
  else if settings.cleanup_time.isSome = true ∧
      (parse_hm ((settings.cleanup_time.getD DEFAULT_CLEANUP_TIME).data)).isNone = true then
    (["invalid settings provided in config: invalid cleanup time, expected format is \"HH:MM\" in 24-hour format."],
     Except.error (EdgedError.new
       "invalid cleanup time, expected format is \"HH:MM\" in 24-hour format"))
  else
    let min_age := (settings.image_age_cleanup_threshold).getD min_age
    ([], Except.ok (ImagePruneSettings.new (some recurrence) (some min_age)
      (some cleanup_time) settings.is_enabled))

/-- The fields of edgelet_settings::docker::Settings that run() consumes. -/
structure Settings where
  homedir : String
  image_garbage_collection : Option ImagePruneSettings
  agent_image : String

/-- Resolved device identity (opaque to the orchestration core). -/
structure DeviceInfo where
  gateway_host : String

/-- Modelled from the spec: edgelet_core WatchdogAction (edgelet_core is not
under src/). The spec names the Signal and Reprovision variants; the core
only distinguishes Reprovision from everything else. -/
inductive WatchdogAction where
  | signal
  | reprovision
deriving DecidableEq

/-- The schedule oracle for the tokio select between the health-supervision
watchdog and the image garbage collection loop: which branch resolves first,
and with which result. The pending result of the losing branch never
materialises, exactly as under tokio select cancellation. -/
inductive RaceOutcome where
  | watchdogFirst (r : Except EdgedError WatchdogAction)
  | imageGcFirst (r : Except EdgedError Unit)

/-- The results of every external collaborator run() interacts with, plus
the schedule oracle for the steady-state race and the sequence of values the
shutdown drain loop reads from the shared task counter. -/
structure Env where
  load_settings : Except String Settings
  create_cache_dir : Except String Unit
  create_mnt_dir : Except String Unit
  create_gc_dir : Except String Unit
  identity_client : Except EdgedError Unit
  get_device_info : Except EdgedError DeviceInfo
  image_prune_data : Except String Unit
  make_runtime : Except String Unit
  workload_start : Except EdgedError Unit
  /-- stop_all failure is only logged by run() and never alters control flow. -/
  stop_all : Except String Unit
  update_cache : Except EdgedError Unit
  management_start : Except EdgedError Unit
  workload_server : Except EdgedError Unit
  race : RaceOutcome
  watchdog_alone : Except EdgedError WatchdogAction
  /-- Value of the k-th atomic load of the shared task counter in the drain loop. -/
  task_counter : Nat → Nat
  reprovision : Except String Unit

/-- Externally visible events of one execution of run(), in program order. -/
inductive Event where
  | logInfoNoGcConfig
  | validatorLoggedError (line : String)
  | imagePruneDataNew (gc : ImagePruneSettings)
  | makeRuntime
  | imageGcStart (gc : ImagePruneSettings)
  | watchdogStart
  | shutdownReasonSet (a : WatchdogAction)
  | drained (wait_ms : Nat) (timedOut : Bool) (outstanding : Nat)
  | reprovisionCall (cache_dir : String)
deriving DecidableEq

/-- How run() ends: a direct std::process::exit, an Err return, or Ok(()). -/
inductive RunOutcome where
  | exited (code : Int)
  | failed (e : EdgedError)
  | ok
deriving DecidableEq

/-- The startup phase of run() up to device identity resolution: settings
loading, the three directory creations, identity client construction and
device info resolution. Every failure short-circuits with the error that the
corresponding map_err in main.rs produces. -/
def startup_prelude (env : Env) : Except EdgedError Settings := do
  let settings ← env.load_settings.mapError EdgedError.settings_err
  let _ ← env.create_cache_dir.mapError (EdgedError.from_err "Failed to create cache directory")
  let _ ← env.create_mnt_dir.mapError (EdgedError.from_err "Failed to create mnt directory")
  let _ ← env.create_gc_dir.mapError (EdgedError.from_err "Failed to create gc directory")
  let _ ← env.identity_client
  let _ ← env.get_device_info
  pure settings

/-- The subsystem startup chain of run() after the module runtime exists:
workload manager start, device cache update, management API start and the
workload server; the stale-module stop_all in between is best effort and
does not affect control flow. -/
def subsystems_start (env : Env) : Except EdgedError Unit := do
  let _ ← env.workload_start
  let _ ← env.update_cache
  let _ ← env.management_start
  let _ ← env.workload_server
  pure ()

/-- The informational log line emitted when config.toml has no
image_garbage_collection section, as a trace fragment. -/
def gcInfoEvents (s : Settings) : List Event :=
  match s.image_garbage_collection with
  | some _ => []
  | none => [Event.logInfoNoGcConfig]

/-- The default ImagePruneSettings built at the top of run(): garbage
collection enabled, one day recurrence, seven day minimum age, midnight
cleanup time. -/
def defaults_gc : ImagePruneSettings :=
  ImagePruneSettings.new (some (Duration.from_secs DEFAULT_RECURRENCE_IN_SECS))
    (some (Duration.from_secs DEFAULT_MIN_AGE_IN_SECS)) (some DEFAULT_CLEANUP_TIME) true

/-- The shutdown drain loop of run(): poll the task counter (the i-th load
reads the environment sequence at i), exit as soon as a load reads zero,
otherwise once wait_time has reached the ten second budget exit with the
timeout warning naming the outstanding count; each further iteration sleeps
100 ms, accounted in wait_time (milliseconds). Returns the final wait_time,
whether the budget ran out, and the outstanding count at exit. -/
def drain (reads : Nat → Nat) (i wait_time : Nat) : Nat × Bool × Nat :=
  if reads i = 0 then (wait_time, false, 0)
  else if h : 10000 ≤ wait_time then (wait_time, true, reads i)
  else drain reads (i + 1) (wait_time + 100)
termination_by 10000 - wait_time
decreasing_by omega

/-- The tail of run() once the shutdown reason is known: stop both APIs,
drain the task counter, then either reprovision (when the reason is
Reprovision: success is the designated reprovisioned outcome, failure is
fatal) or return Ok. -/
def shutdown_sequence (env : Env) (cache_dir : String) (reason : WatchdogAction) :
    RunOutcome × List Event :=
  let d := drain env.task_counter 0 0
  let base := [Event.shutdownReasonSet reason, Event.drained d.1 d.2.1 d.2.2]
  match reason with
  | WatchdogAction.reprovision =>
    match env.reprovision with
    | Except.ok _ =>
        (RunOutcome.failed EdgedError.reprovisioned, base ++ [Event.reprovisionCall cache_dir])
    | Except.error e =>
        (RunOutcome.failed (EdgedError.from_err "Failed to reprovision" e),
         base ++ [Event.reprovisionCall cache_dir])
  | WatchdogAction.signal => (RunOutcome.ok, base)

/-- run() from main.rs, as a function of the collaborator environment.
Mirrors the source: startup phase, image garbage collection settings with
defaults when the config has no section, the pass-or-exit validation call,
image prune data and module runtime construction, subsystem startup, then
either the select race of the watchdog against the garbage collection loop
(when enabled) or the watchdog alone, followed by the shutdown sequence. -/
def run (env : Env) : RunOutcome × List Event :=
  match startup_prelude env with
  | Except.error e => (RunOutcome.failed e, [])
  | Except.ok settings =>
    let cache_dir := settings.homedir ++ "/cache"
    let gc_settings := settings.image_garbage_collection.getD defaults_gc
    let result := check_settings_and_populate gc_settings
    let trace0 := gcInfoEvents settings ++ result.1.map Event.validatorLoggedError
    if is_ok result.2 = false then (RunOutcome.exited exitcode_CONFIG, trace0)
    else
      let trace1 := trace0 ++ [Event.imagePruneDataNew gc_settings]
      match env.image_prune_data with
      | Except.error e =>
          (RunOutcome.failed (EdgedError.from_err "Failed to set up image garbage collection" e),
           trace1)
      | Except.ok _ =>
        let trace2 := trace1 ++ [Event.makeRuntime]
        match env.make_runtime with
        | Except.error e =>
            (RunOutcome.failed (EdgedError.from_err "Failed to initialize module runtime" e),
             trace2)
        | Except.ok _ =>
          match subsystems_start env with
          | Except.error e => (RunOutcome.failed e, trace2)
          | Except.ok _ =>
            if gc_settings.is_enabled then
              let trace3 := trace2 ++ [Event.imageGcStart gc_settings, Event.watchdogStart]
              match env.race with
              | RaceOutcome.watchdogFirst (Except.error e) => (RunOutcome.failed e, trace3)
              | RaceOutcome.watchdogFirst (Except.ok a) =>
                  let t := shutdown_sequence env cache_dir a
                  (t.1, trace3 ++ t.2)
              | RaceOutcome.imageGcFirst (Except.error e) => (RunOutcome.failed e, trace3)
              | RaceOutcome.imageGcFirst (Except.ok _) =>
                  (RunOutcome.failed (EdgedError.new "image garbage collection unexpectedly stopped"),
                   trace3)
            else
              let trace3 := trace2 ++ [Event.watchdogStart]
              match env.watchdog_alone with
              | Except.error e => (RunOutcome.failed e, trace3)
              | Except.ok a =>
                  let t := shutdown_sequence env cache_dir a
                  (t.1, trace3 ++ t.2)

/-- Log severity at the process boundary. -/
inductive LogLevel where
  | info
  | error
deriving DecidableEq

/-- Modelled from the spec: the process boundary in main(). A clean Ok exits
zero; a direct process exit keeps its code; an Err is logged at info level
when its exit code is the dedicated reprovisioned code and at error level
otherwise, and the process exits with the error code. -/
def process_outcome : RunOutcome → Int × Option LogLevel
  | RunOutcome.ok => (0, none)
  | RunOutcome.exited c => (c, none)
  | RunOutcome.failed e =>
      (e.exit_code,
       some (if e.exit_code = EdgedError.reprovisioned.exit_code then LogLevel.info
             else LogLevel.error))

/-- The cleanup-time format exactly as the claim words it: a strict
two-digit HH:MM 24-hour time, two digit characters, a colon, two digit
characters, hours 00 to 23 and minutes 00 to 59. Stated from the claim for
comparison with the behaviour of the code. -/
def specStrictHHMM (s : String) : Bool :=
  match s.data with
  | [h1, h2, c, m1, m2] =>
      h1.isDigit && h2.isDigit && (c == ':') && m1.isDigit && m2.isDigit &&
      decide (digitsVal [h1, h2] < 24) && decide (digitsVal [m1, m2] < 60)
  | _ => false

/-- A whitespace run. -/
def IsWsRun (w : List Char) : Prop := ∀ c ∈ w, c.isWhitespace = true

/-- A nonempty run of at most two digit characters. -/
def IsDigitRun (d : List Char) : Prop :=
  d ≠ [] ∧ d.length ≤ 2 ∧ ∀ c ∈ d, c.isDigit = true

/-- The strings the chrono "%H:%M" parse accepts, stated declaratively:
optional whitespace, one or two digits valuing below 24, a colon, optional
whitespace, one or two digits valuing below 60, and nothing after. -/
def ChronoHM (l : List Char) : Prop :=
  ∃ w1 d1 w2 d2 : List Char,
    l = w1 ++ d1 ++ ':' :: (w2 ++ d2) ∧
    IsWsRun w1 ∧ IsDigitRun d1 ∧ IsWsRun w2 ∧ IsDigitRun d2 ∧
    digitsVal d1 < 24 ∧ digitsVal d2 < 60

/-- Two-digit rendering HH:MM of an hour and minute pair. -/
def fmtHHMM (h m : Nat) : String :=
  ⟨[Char.ofNat (48 + h / 10), Char.ofNat (48 + h % 10), ':',
    Char.ofNat (48 + m / 10), Char.ofNat (48 + m % 10)]⟩

/-- Steady state is reached: the startup phase produced these settings, the
garbage collection settings passed validation, image prune data and the
module runtime were constructed and all subsystems started. -/
def Env.reachesSelect (env : Env) (s : Settings) : Prop :=
  startup_prelude env = Except.ok s ∧
  is_ok (check_settings_and_populate (s.image_garbage_collection.getD defaults_gc)).2 = true ∧
  env.image_prune_data = Except.ok () ∧
  env.make_runtime = Except.ok () ∧
  subsystems_start env = Except.ok ()

/-- A cleanup-time option that passes the validator: absent, or parsing
under the chrono "%H:%M" format. -/
def cleanup_time_ok (ct : Option String) : Prop :=
  ct = none ∨ ∃ s, ct = some s ∧ (parse_hm s.data).isSome = true

/-- Baseline settings for concrete executions. -/
def sBase : Settings :=
  { homedir := "/var/lib/aziot/edged"
    image_garbage_collection := none
    agent_image := "mcr.microsoft.com/azureiotedge-agent:1.4" }

/-- Baseline environment in which every collaborator succeeds, the watchdog
wins the race with a Signal action, and the task counter is already zero. -/
def envBase : Env :=
  { load_settings := Except.ok sBase
    create_cache_dir := Except.ok ()
    create_mnt_dir := Except.ok ()
    create_gc_dir := Except.ok ()
    identity_client := Except.ok ()
    get_device_info := Except.ok ⟨"gateway"⟩
    image_prune_data := Except.ok ()
    make_runtime := Except.ok ()
    workload_start := Except.ok ()
    stop_all := Except.ok ()
    update_cache := Except.ok ()
    management_start := Except.ok ()
    workload_server := Except.ok ()
    race := RaceOutcome.watchdogFirst (Except.ok WatchdogAction.signal)
    watchdog_alone := Except.ok WatchdogAction.signal
    task_counter := fun _ => 0
    reprovision := Except.ok () }

/-- Environment in which the watchdog wins the race with a Reprovision action. -/
def envRep : Env :=
  { envBase with race := RaceOutcome.watchdogFirst (Except.ok WatchdogAction.reprovision) }

/-- Environment in which reprovisioning is requested and then fails. -/
def envRepErr : Env :=
  { envRep with reprovision := Except.error "identity service unavailable" }

/-- Environment in which the image garbage collection loop stops first. -/
def envGcStop : Env :=
  { envBase with race := RaceOutcome.imageGcFirst (Except.ok ()) }

/-- A configuration section with garbage collection disabled. -/
def gcDisabled : ImagePruneSettings := ImagePruneSettings.new none none none false

/-- Settings whose configuration disables garbage collection. -/
def sDisabled : Settings :=
  { homedir := "/var/lib/aziot/edged"
    image_garbage_collection := some gcDisabled
    agent_image := "mcr.microsoft.com/azureiotedge-agent:1.4" }

/-- Environment loading the disabled-GC settings. -/
def envDisabled : Env := { envBase with load_settings := Except.ok sDisabled }

/-- A configuration section that fails validation (recurrence below one day). -/
def badGc : ImagePruneSettings := ImagePruneSettings.new (some 0) none none true

/-- Settings carrying the invalid garbage collection section. -/
def sBad : Settings :=
  { homedir := "/var/lib/aziot/edged"
    image_garbage_collection := some badGc
    agent_image := "mcr.microsoft.com/azureiotedge-agent:1.4" }

/-- Environment loading the invalid settings. -/
def envBad : Env := { envBase with load_settings := Except.ok sBad }

/-- A valid configuration section whose cleanup time is not the default, so
that the validator output visibly differs from the input. -/
def gcCustom : ImagePruneSettings := ImagePruneSettings.new none none (some "13:45") true

/-- Settings carrying the custom garbage collection section. -/
def sCustom : Settings :=
  { homedir := "/var/lib/aziot/edged"
    image_garbage_collection := some gcCustom
    agent_image := "mcr.microsoft.com/azureiotedge-agent:1.4" }

/-- Environment loading the custom settings. -/
def envCustom : Env := { envBase with load_settings := Except.ok sCustom }

/-! ## Helper lemmas about the chrono percent-H colon percent-M parse model -/

theorem digit_not_ws {c : Char} (h : c.isDigit = true) : c.isWhitespace = false := by
  cases hw : c.isWhitespace
  · rfl
  · exfalso
    simp only [Char.isWhitespace, Bool.or_eq_true, decide_eq_true_eq] at hw
    rcases hw with ((h1 | h1) | h1) | h1 <;> subst h1 <;> exact absurd h (by decide)

theorem scan2_nil : scan_number 2 ([] : List Char) = none := rfl

theorem scan2_not_digit {a : Char} (r : List Char) (h : a.isDigit = false) :
    scan_number 2 (a :: r) = none := by
  simp [scan_number, List.take_succ_cons, List.takeWhile_cons, h]

theorem scan2_one {a : Char} (h : a.isDigit = true) :
    scan_number 2 [a] = some (digitsVal [a], []) := by
  simp [scan_number, List.take_succ_cons, List.takeWhile_cons, h]

theorem scan2_one_stop {a b : Char} (r : List Char) (ha : a.isDigit = true)
    (hb : b.isDigit = false) :
    scan_number 2 (a :: b :: r) = some (digitsVal [a], b :: r) := by
  simp [scan_number, List.take_succ_cons, List.takeWhile_cons, ha, hb]

theorem scan2_two {a b : Char} (r : List Char) (ha : a.isDigit = true)
    (hb : b.isDigit = true) :
    scan_number 2 (a :: b :: r) = some (digitsVal [a, b], r) := by
  simp [scan_number, List.take_succ_cons, List.takeWhile_cons, ha, hb]

theorem dropWhile_append_of_all {p : Char → Bool} (w r : List Char)
    (h : ∀ c ∈ w, p c = true) : List.dropWhile p (w ++ r) = List.dropWhile p r := by
  induction w with
  | nil => rfl
  | cons a w ih =>
    have ha : p a = true := h a (by simp)
    simp only [List.cons_append, List.dropWhile_cons, ha, if_true]
    exact ih (fun c hc => h c (by simp [hc]))

theorem dropWhile_head_neg {p : Char → Bool} {a : Char} (r : List Char) (h : p a = false) :
    List.dropWhile p (a :: r) = a :: r := by
  simp [List.dropWhile_cons, h]

theorem dropWhile_ws_digit_lead {w : List Char} {a : Char} (r : List Char)
    (hw : IsWsRun w) (ha : a.isDigit = true) :
    List.dropWhile Char.isWhitespace (w ++ a :: r) = a :: r := by
  rw [dropWhile_append_of_all w _ hw, dropWhile_head_neg r (digit_not_ws ha)]

theorem scan2_digits_exact {d : List Char} (hd : IsDigitRun d) :
    scan_number 2 d = some (digitsVal d, []) := by
  obtain ⟨hne, hlen, hdg⟩ := hd
  match d with
  | [] => exact absurd rfl hne
  | [a] => exact scan2_one (hdg a (by simp))
  | [a, b] => exact scan2_two [] (hdg a (by simp)) (hdg b (by simp))
  | a :: b :: c :: t => simp at hlen

/-- The minute step succeeds exactly when the remaining input is optional
whitespace followed by one or two digits valuing below sixty, and the hour
already read is below twenty-four. -/
theorem parse_minute_rest_iff (hv : Nat) (r2 : List Char) :
    (parse_minute_rest hv r2).isSome = true ↔
    ((∃ w2 d2, r2 = w2 ++ d2 ∧ IsWsRun w2 ∧ IsDigitRun d2 ∧ digitsVal d2 < 60) ∧ hv < 24) := by
  constructor
  · intro h
    have hsplit2 := List.takeWhile_append_dropWhile Char.isWhitespace r2
    have hw2 : IsWsRun (r2.takeWhile Char.isWhitespace) :=
      fun c hc => List.mem_takeWhile_imp hc
    simp only [parse_minute_rest] at h
    rcases hl2 : r2.dropWhile Char.isWhitespace with _ | ⟨x, t2⟩
    · rw [hl2, scan2_nil] at h
      simp at h
    · rcases hhx : x.isDigit with _ | _
      · rw [hl2, scan2_not_digit t2 hhx] at h
        simp at h
      · rcases t2 with _ | ⟨y, u3⟩
        · rw [hl2, scan2_one hhx] at h
          simp only [] at h
          split at h
          · rename_i hcond
            have hr2 : r2 = r2.takeWhile Char.isWhitespace ++ [x] := by
              conv_lhs => rw [← hsplit2]
              rw [hl2]
            exact ⟨⟨r2.takeWhile Char.isWhitespace, [x], hr2, hw2,
              ⟨by simp, by simp, by simp [hhx]⟩, hcond.2.2⟩, hcond.2.1⟩
          · simp at h
        · rcases hhy : y.isDigit with _ | _
          · rw [hl2, scan2_one_stop u3 hhx hhy] at h
            simp only [] at h
            split at h
            · rename_i hcond
              exfalso
              have := hcond.1
              simp [List.isEmpty_iff] at this
            · simp at h
          · rw [hl2, scan2_two u3 hhx hhy] at h
            simp only [] at h
            split at h
            · rename_i hcond
              have hu3 : u3 = [] := by
                have := hcond.1
                simpa [List.isEmpty_iff] using this
              subst hu3
              have hr2 : r2 = r2.takeWhile Char.isWhitespace ++ [x, y] := by
                conv_lhs => rw [← hsplit2]
                rw [hl2]
              exact ⟨⟨r2.takeWhile Char.isWhitespace, [x, y], hr2, hw2,
                ⟨by simp, by simp, by simp [hhx, hhy]⟩, hcond.2.2⟩, hcond.2.1⟩
            · simp at h
  · rintro ⟨⟨w2, d2, rfl, hw2, hd2, hv2⟩, hv24⟩
    have hdrop : List.dropWhile Char.isWhitespace (w2 ++ d2) = d2 := by
      match d2 with
      | [] => exact absurd rfl hd2.1
      | x :: t2 => exact dropWhile_ws_digit_lead t2 hw2 (hd2.2.2 x (by simp))
    simp only [parse_minute_rest, hdrop, scan2_digits_exact hd2]
    simp [hv24, hv2]

/-- Soundness and completeness of the parse model against the declarative
description of the strings the chrono "%H:%M" format accepts. -/
theorem parse_hm_iff_chrono (l : List Char) : (parse_hm l).isSome = true ↔ ChronoHM l := by
  constructor
  · intro h
    have hsplit := List.takeWhile_append_dropWhile Char.isWhitespace l
    have hw1 : IsWsRun (l.takeWhile Char.isWhitespace) :=
      fun c hc => List.mem_takeWhile_imp hc
    simp only [parse_hm] at h
    rcases hl1 : l.dropWhile Char.isWhitespace with _ | ⟨a, t⟩
    · rw [hl1, scan2_nil] at h
      simp at h
    · rcases hha : a.isDigit with _ | _
      · rw [hl1, scan2_not_digit t hha] at h
        simp at h
      · rcases t with _ | ⟨b, u⟩
        · rw [hl1, scan2_one hha] at h
          simp at h
        · rcases hhb : b.isDigit with _ | _
          · -- one-digit hour; b must be the colon
            rw [hl1, scan2_one_stop u hha hhb] at h
            simp only [] at h
            by_cases hcolon : b = ':'
            · subst hcolon
              rw [if_pos rfl] at h
              obtain ⟨⟨w2, d2, rfl, hw2, hd2, hv2⟩, hv24⟩ := (parse_minute_rest_iff _ _).mp h
              have hl : l = l.takeWhile Char.isWhitespace ++ [a] ++ ':' :: (w2 ++ d2) := by
                conv_lhs => rw [← hsplit]
                rw [hl1]
                simp
              exact ⟨l.takeWhile Char.isWhitespace, [a], w2, d2, hl, hw1, ⟨by simp, by simp, by simp [hha]⟩, hw2, hd2,
                hv24, hv2⟩
            · rw [if_neg hcolon] at h
              simp at h
          · -- two-digit hour; the next character must be the colon
            rw [hl1, scan2_two u hha hhb] at h
            simp only [] at h
            rcases u with _ | ⟨c, r2⟩
            · simp at h
            · simp only [] at h
              by_cases hcolon : c = ':'
              · subst hcolon
                rw [if_pos rfl] at h
                obtain ⟨⟨w2, d2, rfl, hw2, hd2, hv2⟩, hv24⟩ := (parse_minute_rest_iff _ _).mp h
                have hl : l = l.takeWhile Char.isWhitespace ++ [a, b] ++ ':' :: (w2 ++ d2) := by
                  conv_lhs => rw [← hsplit]
                  rw [hl1]
                  simp
                exact ⟨l.takeWhile Char.isWhitespace, [a, b], w2, d2, hl, hw1, ⟨by simp, by simp, by simp [hha, hhb]⟩, hw2, hd2,
                  hv24, hv2⟩
              · rw [if_neg hcolon] at h
                simp at h
  · rintro ⟨w1, d1, w2, d2, rfl, hw1, hd1, hw2, hd2, hv1, hv2⟩
    have hmin : (parse_minute_rest (digitsVal d1) (w2 ++ d2)).isSome = true :=
      (parse_minute_rest_iff _ _).mpr ⟨⟨w2, d2, rfl, hw2, hd2, hv2⟩, hv1⟩
    obtain ⟨hne1, hlen1, hdg1⟩ := hd1
    match d1 with
    | [] => exact absurd rfl hne1
    | [a] =>
      have ha := hdg1 a (by simp)
      have hdrop : List.dropWhile Char.isWhitespace (w1 ++ [a] ++ ':' :: (w2 ++ d2)) =
          a :: ':' :: (w2 ++ d2) := by
        rw [List.append_assoc]
        exact dropWhile_ws_digit_lead _ hw1 ha
      simp only [parse_hm, hdrop, @scan2_one_stop a ':' (w2 ++ d2) ha (by decide), if_pos rfl]
      exact hmin
    | [a, b] =>
      have ha := hdg1 a (by simp)
      have hb := hdg1 b (by simp)
      have hdrop : List.dropWhile Char.isWhitespace (w1 ++ [a, b] ++ ':' :: (w2 ++ d2)) =
          a :: b :: ':' :: (w2 ++ d2) := by
        rw [List.append_assoc]
        exact dropWhile_ws_digit_lead _ hw1 ha
      simp only [parse_hm, hdrop, scan2_two _ ha hb, if_pos rfl]
      exact hmin
    | a :: b :: c :: t => simp at hlen1

/-! ## Characterisation of the settings validator -/

/-- Failing recurrence gate: present and below one day fails with the
invalid-settings error, logging exactly one line. -/
theorem check_recurrence_err (r : Nat) (ma : Option Nat) (ct : Option String) (e : Bool)
    (hr : r < Duration.from_secs (60 * 60 * 24)) :
    check_settings_and_populate (ImagePruneSettings.new (some r) ma ct e) =
      (["invalid settings provided in config: cleanup recurrence cannot be less than 1 day."],
       Except.error (EdgedError.from_err "invalid settings provided in config"
         "cleanup recurrence cannot be less than 1 day")) := by
  simp only [check_settings_and_populate, ImagePruneSettings.new]
  rw [if_pos ⟨rfl, hr⟩]

/-- Failing cleanup-time gate: recurrence gate passing, cleanup time present
but not parsing, fails with the invalid-cleanup-time error, logging exactly
one line. -/
theorem check_cleanup_time_err (rec ma : Option Nat) (s : String) (e : Bool)
    (h1 : rec = none ∨ ∃ r, rec = some r ∧ Duration.from_secs (60 * 60 * 24) ≤ r)
    (hp : parse_hm s.data = none) :
    check_settings_and_populate (ImagePruneSettings.new rec ma (some s) e) =
      (["invalid settings provided in config: invalid cleanup time, expected format is \"HH:MM\" in 24-hour format."],
       Except.error (EdgedError.new
         "invalid cleanup time, expected format is \"HH:MM\" in 24-hour format")) := by
  simp only [check_settings_and_populate, ImagePruneSettings.new]
  rcases h1 with rfl | ⟨r, rfl, hge⟩
  · rw [if_neg (by simp), if_pos ⟨rfl, by simp [hp]⟩]
  · rw [if_neg (fun hc => absurd hc.2 (Nat.not_lt.mpr hge)), if_pos ⟨rfl, by simp [hp]⟩]

/-- Both gates passing, the validator returns no log lines and the populated
settings: supplied-or-default recurrence and minimum age, the default
cleanup time, and the enabled flag passed through. -/
theorem check_ok_value (rec ma : Option Nat) (ct : Option String) (e : Bool)
    (h1 : rec = none ∨ ∃ r, rec = some r ∧ Duration.from_secs (60 * 60 * 24) ≤ r)
    (h2 : cleanup_time_ok ct) :
    check_settings_and_populate (ImagePruneSettings.new rec ma ct e) =
      ([], Except.ok (ImagePruneSettings.new
        (some (rec.getD (Duration.from_secs DEFAULT_RECURRENCE_IN_SECS)))
        (some (ma.getD (Duration.from_secs DEFAULT_MIN_AGE_IN_SECS)))
        (some DEFAULT_CLEANUP_TIME) e)) := by
  simp only [check_settings_and_populate, ImagePruneSettings.new]
  have hA : ¬(rec.isSome = true ∧
      rec.getD (Duration.from_secs DEFAULT_RECURRENCE_IN_SECS) < Duration.from_secs (60 * 60 * 24)) := by
    rcases h1 with rfl | ⟨r, rfl, hge⟩
    · simp
    · exact fun hc => absurd hc.2 (Nat.not_lt.mpr hge)
  have hB : ¬(ct.isSome = true ∧
      (parse_hm ((ct.getD DEFAULT_CLEANUP_TIME).data)).isNone = true) := by
    rcases h2 with rfl | ⟨s, rfl, hp⟩
    · simp
    · intro hc
      have hn := hc.2
      simp only [Option.getD_some, Option.isNone_iff_eq_none] at hn
      rw [hn] at hp
      simp at hp
  rw [if_neg hA, if_neg hB]

/-- A failing recurrence gate means a present recurrence below one day. -/
theorem not_rec_gate {rec : Option Nat}
    (h1 : ¬(rec = none ∨ ∃ r, rec = some r ∧ Duration.from_secs (60 * 60 * 24) ≤ r)) :
    ∃ r, rec = some r ∧ r < Duration.from_secs (60 * 60 * 24) := by
  rcases rec with _ | r
  · exact absurd (Or.inl rfl) h1
  · refine ⟨r, rfl, ?_⟩
    by_cases hlt : r < Duration.from_secs (60 * 60 * 24)
    · exact hlt
    · exact absurd (Or.inr ⟨r, rfl, Nat.not_lt.mp hlt⟩) h1

/-- A failing cleanup-time gate means a present cleanup time that does not parse. -/
theorem not_ct_gate {ct : Option String} (h2 : ¬ cleanup_time_ok ct) :
    ∃ s, ct = some s ∧ parse_hm s.data = none := by
  rcases ct with _ | s
  · exact absurd (Or.inl rfl) h2
  · refine ⟨s, rfl, ?_⟩
    rcases hps : parse_hm s.data with _ | v
    · rfl
    · exact absurd (Or.inr ⟨s, rfl, by simp [hps]⟩) h2

/-- The validator succeeds exactly when the recurrence gate passes (absent or
at least one day) and the cleanup-time gate passes (absent or parsing under
the chrono format). -/
theorem check_ok_iff (rec ma : Option Nat) (ct : Option String) (e : Bool) :
    is_ok (check_settings_and_populate (ImagePruneSettings.new rec ma ct e)).2 = true ↔
    ((rec = none ∨ ∃ r, rec = some r ∧ Duration.from_secs (60 * 60 * 24) ≤ r) ∧
     cleanup_time_ok ct) := by
  constructor
  · intro h
    by_cases h1 : rec = none ∨ ∃ r, rec = some r ∧ Duration.from_secs (60 * 60 * 24) ≤ r
    · by_cases h2 : cleanup_time_ok ct
      · exact ⟨h1, h2⟩
      · obtain ⟨s, rfl, hps⟩ := not_ct_gate h2
        rw [check_cleanup_time_err rec ma s e h1 hps] at h
        simp [is_ok] at h
    · obtain ⟨r, rfl, hr⟩ := not_rec_gate h1
      rw [check_recurrence_err r ma ct e hr] at h
      simp [is_ok] at h
  · rintro ⟨h1, h2⟩
    rw [check_ok_value rec ma ct e h1 h2]
    rfl

/-- When the validator fails it logs exactly one error line. -/
theorem check_fail_logs (s : ImagePruneSettings)
    (h : is_ok (check_settings_and_populate s).2 = false) :
    (check_settings_and_populate s).1.length = 1 := by
  obtain ⟨rec, ma, ct, e⟩ := s
  rw [show (⟨rec, ma, ct, e⟩ : ImagePruneSettings) = ImagePruneSettings.new rec ma ct e
    from rfl] at h ⊢
  by_cases h1 : rec = none ∨ ∃ r, rec = some r ∧ Duration.from_secs (60 * 60 * 24) ≤ r
  · by_cases h2 : cleanup_time_ok ct
    · rw [check_ok_value rec ma ct e h1 h2] at h
      simp [is_ok] at h
    · obtain ⟨str, rfl, hps⟩ := not_ct_gate h2
      rw [check_cleanup_time_err rec ma str e h1 hps]
      rfl
  · obtain ⟨r, rfl, hr⟩ := not_rec_gate h1
    rw [check_recurrence_err r ma ct e hr]
    rfl

/-- When the validator succeeds it logs nothing. -/
theorem check_ok_logs (s : ImagePruneSettings)
    (h : is_ok (check_settings_and_populate s).2 = true) :
    (check_settings_and_populate s).1 = [] := by
  obtain ⟨rec, ma, ct, e⟩ := s
  rw [show (⟨rec, ma, ct, e⟩ : ImagePruneSettings) = ImagePruneSettings.new rec ma ct e
    from rfl] at h ⊢
  have hg := (check_ok_iff rec ma ct e).mp h
  rw [check_ok_value rec ma ct e hg.1 hg.2]

/-! ## The shutdown drain loop -/

/-- If every poll up to the budget reads a nonzero count, the drain loop
runs the full ten seconds and exits on the timeout path, reporting the count
read by the final poll. -/
theorem drain_timeout_from (reads : Nat → Nat) :
    ∀ (n i w : Nat), w = 100 * i → w + 100 * n = 10000 →
    (∀ j, i ≤ j → j ≤ i + n → reads j ≠ 0) →
    drain reads i w = (10000, true, reads (i + n)) := by
  intro n
  induction n with
  | zero =>
    intro i w hw hsum hne
    rw [drain.eq_def, if_neg (hne i (Nat.le_refl i) (by omega)), dif_pos (by omega)]
    have : w = 10000 := by omega
    simp [this]
  | succ n ih =>
    intro i w hw hsum hne
    rw [drain.eq_def, if_neg (hne i (Nat.le_refl i) (by omega)), dif_neg (by omega)]
    have := ih (i + 1) (w + 100) (by omega) (by omega)
      (fun j hj1 hj2 => hne j (by omega) (by omega))
    rw [this]
    have : i + 1 + n = i + (n + 1) := by omega
    rw [this]

/-- If the counter first reads zero at the k-th poll within the budget, the
drain loop exits right there with no timeout, having slept k poll periods. -/
theorem drain_zero_from (reads : Nat → Nat) :
    ∀ (k i w : Nat), w = 100 * i → w + 100 * k ≤ 10000 →
    reads (i + k) = 0 → (∀ j, i ≤ j → j < i + k → reads j ≠ 0) →
    drain reads i w = (w + 100 * k, false, 0) := by
  intro k
  induction k with
  | zero =>
    intro i w hw hsum h0 hne
    rw [drain.eq_def, if_pos (by simpa using h0)]
    simp
  | succ k ih =>
    intro i w hw hsum h0 hne
    rw [drain.eq_def, if_neg (hne i (Nat.le_refl i) (by omega)), dif_neg (by omega)]
    have := ih (i + 1) (w + 100) (by omega) (by omega)
      (by rw [show i + 1 + k = i + (k + 1) from by omega]; exact h0)
      (fun j hj1 hj2 => hne j (by omega) (by omega))
    rw [this]
    have : w + 100 + 100 * k = w + 100 * (k + 1) := by omega
    rw [this]


/-! ## Computation of run() on the claim-relevant paths -/

/-- GC enabled, the watchdog wins the race with an action: run proceeds to
the shutdown sequence with that action as the shutdown reason. -/
theorem run_enabled_watchdog_ok (env : Env) (s : Settings) (a : WatchdogAction)
    (h : env.reachesSelect s)
    (hen : (s.image_garbage_collection.getD defaults_gc).is_enabled = true)
    (hr : env.race = RaceOutcome.watchdogFirst (Except.ok a)) :
    run env = ((shutdown_sequence env (s.homedir ++ "/cache") a).1,
      gcInfoEvents s ++
        [Event.imagePruneDataNew (s.image_garbage_collection.getD defaults_gc),
         Event.makeRuntime,
         Event.imageGcStart (s.image_garbage_collection.getD defaults_gc),
         Event.watchdogStart] ++ (shutdown_sequence env (s.homedir ++ "/cache") a).2) := by
  obtain ⟨h1, h2, h3, h4, h5⟩ := h
  simp [run, h1, h2, h3, h4, h5, hr, hen, check_ok_logs _ h2]

/-- GC enabled, the watchdog wins the race with an error: run fails with it. -/
theorem run_enabled_watchdog_err (env : Env) (s : Settings) (e : EdgedError)
    (h : env.reachesSelect s)
    (hen : (s.image_garbage_collection.getD defaults_gc).is_enabled = true)
    (hr : env.race = RaceOutcome.watchdogFirst (Except.error e)) :
    run env = (RunOutcome.failed e,
      gcInfoEvents s ++
        [Event.imagePruneDataNew (s.image_garbage_collection.getD defaults_gc),
         Event.makeRuntime,
         Event.imageGcStart (s.image_garbage_collection.getD defaults_gc),
         Event.watchdogStart]) := by
  obtain ⟨h1, h2, h3, h4, h5⟩ := h
  simp [run, h1, h2, h3, h4, h5, hr, hen, check_ok_logs _ h2]

/-- GC enabled, the garbage collection loop resolves at all: run fails, with
the unexpected-stop error when the loop reported success and with the error
itself otherwise. -/
theorem run_enabled_gc_first (env : Env) (s : Settings) (r : Except EdgedError Unit)
    (h : env.reachesSelect s)
    (hen : (s.image_garbage_collection.getD defaults_gc).is_enabled = true)
    (hr : env.race = RaceOutcome.imageGcFirst r) :
    run env = (RunOutcome.failed
        (match r with
         | Except.ok _ => EdgedError.new "image garbage collection unexpectedly stopped"
         | Except.error e => e),
      gcInfoEvents s ++
        [Event.imagePruneDataNew (s.image_garbage_collection.getD defaults_gc),
         Event.makeRuntime,
         Event.imageGcStart (s.image_garbage_collection.getD defaults_gc),
         Event.watchdogStart]) := by
  obtain ⟨h1, h2, h3, h4, h5⟩ := h
  rcases r with r | r <;>
    simp [run, h1, h2, h3, h4, h5, hr, hen, check_ok_logs _ h2]

/-- GC disabled, the watchdog alone finishes with an action: run proceeds to
the shutdown sequence with that action; the garbage collection loop is never
started. -/
theorem run_disabled_watchdog_ok (env : Env) (s : Settings) (a : WatchdogAction)
    (h : env.reachesSelect s)
    (hen : (s.image_garbage_collection.getD defaults_gc).is_enabled = false)
    (hw : env.watchdog_alone = Except.ok a) :
    run env = ((shutdown_sequence env (s.homedir ++ "/cache") a).1,
      gcInfoEvents s ++
        [Event.imagePruneDataNew (s.image_garbage_collection.getD defaults_gc),
         Event.makeRuntime,
         Event.watchdogStart] ++ (shutdown_sequence env (s.homedir ++ "/cache") a).2) := by
  obtain ⟨h1, h2, h3, h4, h5⟩ := h
  simp [run, h1, h2, h3, h4, h5, hw, hen, check_ok_logs _ h2]

/-- GC disabled, the watchdog alone fails: run fails with its error. -/
theorem run_disabled_watchdog_err (env : Env) (s : Settings) (e : EdgedError)
    (h : env.reachesSelect s)
    (hen : (s.image_garbage_collection.getD defaults_gc).is_enabled = false)
    (hw : env.watchdog_alone = Except.error e) :
    run env = (RunOutcome.failed e,
      gcInfoEvents s ++
        [Event.imagePruneDataNew (s.image_garbage_collection.getD defaults_gc),
         Event.makeRuntime,
         Event.watchdogStart]) := by
  obtain ⟨h1, h2, h3, h4, h5⟩ := h
  simp [run, h1, h2, h3, h4, h5, hw, hen, check_ok_logs _ h2]

/-- Validation failure: run exits the process with the configuration error
code right after the validator, with the one validator error line as the
only event after the optional missing-section info line, and in particular
before any image prune data or module runtime construction. -/
theorem run_validation_failure (env : Env) (s : Settings)
    (h1 : startup_prelude env = Except.ok s)
    (hfail : is_ok (check_settings_and_populate
      (s.image_garbage_collection.getD defaults_gc)).2 = false) :
    run env = (RunOutcome.exited exitcode_CONFIG,
      gcInfoEvents s ++
        (check_settings_and_populate
          (s.image_garbage_collection.getD defaults_gc)).1.map Event.validatorLoggedError) := by
  simp [run, h1, hfail]


/-! ## The shutdown sequence trace and outcome -/

theorem sd_mem_reason (env : Env) (cd : String) (a : WatchdogAction) :
    Event.shutdownReasonSet a ∈ (shutdown_sequence env cd a).2 := by
  cases a <;> rcases hrp : env.reprovision with er | u <;> simp [shutdown_sequence, hrp]

theorem sd_not_mem_prune (env : Env) (cd : String) (a : WatchdogAction)
    (x : ImagePruneSettings) :
    Event.imagePruneDataNew x ∉ (shutdown_sequence env cd a).2 := by
  intro hmem
  cases a <;> rcases hrp : env.reprovision with er | u <;>
    simp [shutdown_sequence, hrp] at hmem

theorem sd_not_mem_gcstart (env : Env) (cd : String) (a : WatchdogAction)
    (x : ImagePruneSettings) :
    Event.imageGcStart x ∉ (shutdown_sequence env cd a).2 := by
  intro hmem
  cases a <;> rcases hrp : env.reprovision with er | u <;>
    simp [shutdown_sequence, hrp] at hmem

theorem sd_rpc_iff (env : Env) (cd : String) (a : WatchdogAction) :
    (∃ c, Event.reprovisionCall c ∈ (shutdown_sequence env cd a).2) ↔
      a = WatchdogAction.reprovision := by
  cases a <;> rcases hrp : env.reprovision with er | u <;> simp [shutdown_sequence, hrp]

theorem sd_mem_rpc (env : Env) (cd : String) :
    Event.reprovisionCall cd ∈ (shutdown_sequence env cd WatchdogAction.reprovision).2 := by
  rcases hrp : env.reprovision with er | u <;> simp [shutdown_sequence, hrp]

theorem sd_outcome_signal (env : Env) (cd : String) :
    (shutdown_sequence env cd WatchdogAction.signal).1 = RunOutcome.ok := rfl

theorem sd_outcome_reprovision_ok (env : Env) (cd : String)
    (h : env.reprovision = Except.ok ()) :
    (shutdown_sequence env cd WatchdogAction.reprovision).1 =
      RunOutcome.failed EdgedError.reprovisioned := by
  simp [shutdown_sequence, h]

theorem sd_outcome_reprovision_err (env : Env) (cd : String) (er : String)
    (h : env.reprovision = Except.error er) :
    (shutdown_sequence env cd WatchdogAction.reprovision).1 =
      RunOutcome.failed (EdgedError.from_err "Failed to reprovision" er) := by
  simp [shutdown_sequence, h]

theorem sd_outcome_not_gc_stop (env : Env) (cd : String) (a : WatchdogAction) :
    (shutdown_sequence env cd a).1 ≠
      RunOutcome.failed (EdgedError.new "image garbage collection unexpectedly stopped") := by
  cases a <;> rcases hrp : env.reprovision with er | u <;> simp [shutdown_sequence, hrp]

theorem gcInfoEvents_only_info (s : Settings) (ev : Event) (h : ev ∈ gcInfoEvents s) :
    ev = Event.logInfoNoGcConfig := by
  rcases hgc : s.image_garbage_collection with _ | g
  · simp [gcInfoEvents, hgc] at h
    exact h
  · simp [gcInfoEvents, hgc] at h


/-! ## Claim theorems -/

/-- C1: race property of the steady-state supervisor with GC enabled. If the
health-supervision watchdog resolves first with an action, that action is
the shutdown reason and run proceeds to the normal shutdown sequence, never
producing the maintenance-loop fatal error; if the maintenance loop resolves
at all, with any result, run returns an error and never the clean Ok
outcome (the pending watchdog result does not appear in this branch of the
race oracle: it is discarded). -/
theorem C1_steady_race (env : Env) (s : Settings)
    (h : env.reachesSelect s)
    (hen : (s.image_garbage_collection.getD defaults_gc).is_enabled = true) :
    (∀ a, env.race = RaceOutcome.watchdogFirst (Except.ok a) →
      (run env).1 = (shutdown_sequence env (s.homedir ++ "/cache") a).1 ∧
      Event.shutdownReasonSet a ∈ (run env).2 ∧
      (run env).1 ≠ RunOutcome.failed
        (EdgedError.new "image garbage collection unexpectedly stopped")) ∧
    (∀ r, env.race = RaceOutcome.imageGcFirst r →
      (run env).1 ≠ RunOutcome.ok ∧ ∃ e, (run env).1 = RunOutcome.failed e) := by
  constructor
  · intro a hr
    rw [run_enabled_watchdog_ok env s a h hen hr]
    refine ⟨rfl, ?_, sd_outcome_not_gc_stop env _ a⟩
    simp only [List.mem_append]
    exact Or.inr (sd_mem_reason env _ a)
  · intro r hr
    rw [run_enabled_gc_first env s r h hen hr]
    rcases r with er | u
    · exact ⟨by simp, er, rfl⟩
    · exact ⟨by simp, EdgedError.new "image garbage collection unexpectedly stopped", rfl⟩

theorem C1_steady_race_check :
    (run envBase).1 = RunOutcome.ok ∧
    (run envGcStop).1 ≠ RunOutcome.ok := by
  constructor
  · have h := (C1_steady_race envBase sBase ⟨rfl, rfl, rfl, rfl, rfl⟩ rfl).1
      WatchdogAction.signal rfl
    rw [h.1]
    rfl
  · exact ((C1_steady_race envGcStop
      sBase ⟨rfl, rfl, rfl, rfl, rfl⟩ rfl).2 (Except.ok ()) rfl).1

/-- C2: reprovision terminal outcome. After shutdown draining, reprovision
is invoked, with the cache directory, exactly when the shutdown reason is
Reprovision; its success makes run return the designated reprovisioned
outcome, which the process boundary maps to the dedicated reprovisioned
exit code, distinct from every other error code, with an info-level and not
error-level message; its failure is a fatal error logged at error level;
every other shutdown reason makes run return Ok. -/
theorem C2_reprovision_outcome (env : Env) (s : Settings) (a : WatchdogAction)
    (h : env.reachesSelect s)
    (hen : (s.image_garbage_collection.getD defaults_gc).is_enabled = true)
    (hr : env.race = RaceOutcome.watchdogFirst (Except.ok a)) :
    ((∃ c, Event.reprovisionCall c ∈ (run env).2) ↔ a = WatchdogAction.reprovision) ∧
    (a = WatchdogAction.reprovision →
      Event.reprovisionCall (s.homedir ++ "/cache") ∈ (run env).2) ∧
    (a = WatchdogAction.reprovision → env.reprovision = Except.ok () →
      (run env).1 = RunOutcome.failed EdgedError.reprovisioned ∧
      process_outcome (run env).1 =
        (EdgedError.reprovisioned.exit_code, some LogLevel.info) ∧
      (∀ e2 : EdgedError, e2 ≠ EdgedError.reprovisioned →
        e2.exit_code ≠ EdgedError.reprovisioned.exit_code)) ∧
    (a = WatchdogAction.reprovision → ∀ er, env.reprovision = Except.error er →
      (run env).1 =
        RunOutcome.failed (EdgedError.from_err "Failed to reprovision" er) ∧
      (process_outcome (run env).1).2 = some LogLevel.error) ∧
    (a ≠ WatchdogAction.reprovision → (run env).1 = RunOutcome.ok) := by
  have hrun := run_enabled_watchdog_ok env s a h hen hr
  refine ⟨?_, ?_, ?_, ?_, ?_⟩
  · rw [hrun]
    constructor
    · rintro ⟨c, hc⟩
      simp only [List.mem_append] at hc
      rcases hc with hc | hc
      · rcases hc with hc | hc
        · exact absurd (gcInfoEvents_only_info s _ hc) (by simp)
        · simp at hc
      · exact (sd_rpc_iff env _ a).mp ⟨c, hc⟩
    · rintro rfl
      exact ⟨s.homedir ++ "/cache", by
        simp only [List.mem_append]
        exact Or.inr (sd_mem_rpc env _)⟩
  · rintro rfl
    rw [hrun]
    simp only [List.mem_append]
    exact Or.inr (sd_mem_rpc env _)
  · rintro rfl hok
    rw [hrun]
    rw [sd_outcome_reprovision_ok env _ hok]
    refine ⟨rfl, rfl, ?_⟩
    intro e2 hne
    cases e2 <;> simp [EdgedError.exit_code] at *
  · rintro rfl er herr
    rw [hrun, sd_outcome_reprovision_err env _ er herr]
    exact ⟨rfl, rfl⟩
  · intro hne
    rw [hrun]
    cases a
    · exact sd_outcome_signal env (s.homedir ++ "/cache")
    · exact absurd rfl hne

theorem C2_reprovision_outcome_check :
    (run envRep).1 = RunOutcome.failed EdgedError.reprovisioned ∧
    (run envRepErr).1 =
      RunOutcome.failed
        (EdgedError.from_err "Failed to reprovision" "identity service unavailable") ∧
    (run envBase).1 = RunOutcome.ok := by
  refine ⟨?_, ?_, ?_⟩
  · exact (((C2_reprovision_outcome envRep sBase WatchdogAction.reprovision
      ⟨rfl, rfl, rfl, rfl, rfl⟩ rfl rfl).2.2.1) rfl rfl).1
  · exact (((C2_reprovision_outcome envRepErr sBase WatchdogAction.reprovision
      ⟨rfl, rfl, rfl, rfl, rfl⟩ rfl rfl).2.2.2.1) rfl "identity service unavailable" rfl).1
  · exact ((C2_reprovision_outcome envBase sBase WatchdogAction.signal
      ⟨rfl, rfl, rfl, rfl, rfl⟩ rfl rfl).2.2.2.2) (by simp)


/-- C3: shutdown drain termination and bound. For every possible behaviour
of the shared task counter the drain loop terminates (drain is a total
function); the cumulative wait never exceeds the ten second budget; if the
counter reads zero at some poll within the budget, the loop exits at the
first such poll with no timeout and no outstanding tasks, having slept one
hundred milliseconds per earlier poll; if the counter never reads zero by
the final poll of the budget, the loop exits on the timeout path at exactly
ten seconds, reporting the outstanding count it last read. -/
theorem C3_drain_bound (reads : Nat → Nat) :
    (drain reads 0 0).1 ≤ 10000 ∧
    (∀ k, k ≤ 100 → reads k = 0 → (∀ j, j < k → reads j ≠ 0) →
      drain reads 0 0 = (100 * k, false, 0)) ∧
    ((∀ k, k ≤ 100 → reads k ≠ 0) → drain reads 0 0 = (10000, true, reads 100)) := by
  have hzero : ∀ k, k ≤ 100 → reads k = 0 → (∀ j, j < k → reads j ≠ 0) →
      drain reads 0 0 = (100 * k, false, 0) := by
    intro k hk h0 hne
    have := drain_zero_from reads k 0 0 (by omega) (by omega) (by simpa using h0)
      (fun j hj1 hj2 => hne j (by omega))
    simpa using this
  have htime : (∀ k, k ≤ 100 → reads k ≠ 0) → drain reads 0 0 = (10000, true, reads 100) := by
    intro hne
    have := drain_timeout_from reads 100 0 0 (by omega) (by omega)
      (fun j hj1 hj2 => hne j (by omega))
    simpa using this
  refine ⟨?_, hzero, htime⟩
  by_cases hex : ∃ j, j ≤ 100 ∧ reads j = 0
  · have hfind := Nat.find_spec hex
    have hcopy := hex
    obtain ⟨k, hk, h0⟩ := hcopy
    have hle : Nat.find hex ≤ 100 := le_trans (Nat.find_min' hex ⟨hk, h0⟩) hk
    have heq := hzero (Nat.find hex) hle hfind.2 (fun j hj hj0 =>
      Nat.find_min hex hj ⟨by omega, hj0⟩)
    rw [heq]
    simpa using Nat.mul_le_mul_left 100 hle
  · push_neg at hex
    rw [htime hex]

theorem C3_drain_bound_check :
    drain (fun _ => 5) 0 0 = (10000, true, 5) ∧
    drain (fun k => if k = 0 then 2 else 0) 0 0 = (100, false, 0) := by
  constructor
  · exact (C3_drain_bound (fun _ => 5)).2.2 (fun k hk => by simp)
  · exact (C3_drain_bound (fun k => if k = 0 then 2 else 0)).2.1 1 (by omega)
      (by simp) (fun j hj => by interval_cases j; simp)


/-- Every two-digit rendering of an in-range hour and minute parses. -/
theorem fmt_parses : ∀ (h : Fin 24) (m : Fin 60),
    (parse_hm (fmtHHMM h.val m.val).data).isSome = true := by decide

/-- Each of the malformed example strings is rejected by the parse. -/
theorem bad_examples_fail : ∀ bad ∈ ["26:30", "16:61", "23:333", "2:033", ":::00",
    "12345", "abcde"], parse_hm bad.data = none := by decide

/-- C4 counterexample: the string 2:03 is not a strict two-digit HH:MM time,
yet the validator accepts a settings value carrying it, because the chrono
parse accepts a one-digit hour; so validation does not fail exactly on the
non-strict-two-digit strings. -/
theorem C4_strict_format_counterexample :
    specStrictHHMM "2:03" = false ∧
    is_ok (check_settings_and_populate
      (ImagePruneSettings.new none none (some "2:03") false)).2 = true := by
  constructor
  · decide
  · decide

/-- C4 as amended: when the recurrence gate passes, validation of a present
cleanup time fails exactly when the string is not of the chrono "%H:%M"
form: optional whitespace, a one-or-two-digit hour below 24, a colon,
optional whitespace, a one-or-two-digit minute below 60, and nothing after.
In particular every two-digit rendering 00:00 through 23:59 is accepted,
each of the seven malformed example strings is rejected, and an absent
cleanup time is accepted. -/
theorem C4_cleanup_time_format (rec ma : Option Nat) (ct : String) (e : Bool)
    (hrec : rec = none ∨ ∃ r, rec = some r ∧ Duration.from_secs (60 * 60 * 24) ≤ r) :
    (is_ok (check_settings_and_populate
        (ImagePruneSettings.new rec ma (some ct) e)).2 = true ↔ ChronoHM ct.data) ∧
    is_ok (check_settings_and_populate (ImagePruneSettings.new rec ma none e)).2 = true ∧
    (∀ (h : Fin 24) (m : Fin 60),
      is_ok (check_settings_and_populate
        (ImagePruneSettings.new rec ma (some (fmtHHMM h.val m.val)) e)).2 = true) ∧
    (∀ bad ∈ ["26:30", "16:61", "23:333", "2:033", ":::00", "12345", "abcde"],
      is_ok (check_settings_and_populate
        (ImagePruneSettings.new rec ma (some bad) e)).2 = false) := by
  refine ⟨?_, ?_, ?_, ?_⟩
  · rw [check_ok_iff rec ma (some ct) e, ← parse_hm_iff_chrono]
    constructor
    · rintro ⟨h1, h2⟩
      rcases h2 with h2 | ⟨s2, hs2, hp⟩
      · exact absurd h2 (by simp)
      · obtain rfl : ct = s2 := by simpa using hs2
        exact hp
    · intro hp
      exact ⟨hrec, Or.inr ⟨ct, rfl, hp⟩⟩
  · exact (check_ok_iff rec ma none e).mpr ⟨hrec, Or.inl rfl⟩
  · intro h m
    exact (check_ok_iff rec ma _ e).mpr ⟨hrec, Or.inr ⟨_, rfl, fmt_parses h m⟩⟩
  · intro bad hbad
    cases hb : is_ok (check_settings_and_populate
        (ImagePruneSettings.new rec ma (some bad) e)).2
    · rfl
    · exfalso
      obtain ⟨h1, h2⟩ := (check_ok_iff rec ma (some bad) e).mp hb
      rcases h2 with h2 | ⟨s2, hs2, hp⟩
      · exact absurd h2 (by simp)
      · obtain rfl : bad = s2 := by simpa using hs2
        rw [bad_examples_fail bad hbad] at hp
        simp at hp

theorem C4_cleanup_time_format_check :
    is_ok (check_settings_and_populate
      (ImagePruneSettings.new none none (some "26:30") true)).2 = false ∧
    is_ok (check_settings_and_populate
      (ImagePruneSettings.new none none none true)).2 = true := by
  constructor
  · exact (C4_cleanup_time_format none none "26:30" true (Or.inl rfl)).2.2.2
      "26:30" (by simp)
  · exact (C4_cleanup_time_format none none "00:00" true (Or.inl rfl)).2.1


/-- C5: whenever the validator succeeds, the cleanup-time field of the
returned settings is the compiled-in default 00:00, regardless of the
supplied and validated value: the validated value is bound in an inner
scope that is discarded before the return. -/
theorem C5_cleanup_time_default (s out : ImagePruneSettings)
    (h : (check_settings_and_populate s).2 = Except.ok out) :
    out.cleanup_time = some "00:00" := by
  obtain ⟨rec, ma, ct, e⟩ := s
  rw [show (⟨rec, ma, ct, e⟩ : ImagePruneSettings) = ImagePruneSettings.new rec ma ct e
    from rfl] at h
  by_cases h1 : rec = none ∨ ∃ r, rec = some r ∧ Duration.from_secs (60 * 60 * 24) ≤ r
  · by_cases h2 : cleanup_time_ok ct
    · rw [check_ok_value rec ma ct e h1 h2] at h
      obtain rfl : _ = out := by simpa using h
      rfl
    · obtain ⟨str, rfl, hps⟩ := not_ct_gate h2
      rw [check_cleanup_time_err rec ma str e h1 hps] at h
      simp at h
  · obtain ⟨r, rfl, hr⟩ := not_rec_gate h1
    rw [check_recurrence_err r ma ct e hr] at h
    simp at h

theorem C5_cleanup_time_default_check :
    (check_settings_and_populate
      (ImagePruneSettings.new none none (some "13:45") true)).2 =
      Except.ok (ImagePruneSettings.new
        (some (Duration.from_secs DEFAULT_RECURRENCE_IN_SECS))
        (some (Duration.from_secs DEFAULT_MIN_AGE_IN_SECS)) (some "00:00") true) ∧
    (ImagePruneSettings.new (some (Duration.from_secs DEFAULT_RECURRENCE_IN_SECS))
      (some (Duration.from_secs DEFAULT_MIN_AGE_IN_SECS)) (some "00:00")
      true).cleanup_time = some "00:00" := by
  refine ⟨by decide, ?_⟩
  exact C5_cleanup_time_default
    (ImagePruneSettings.new none none (some "13:45") true) _ (by decide)

/-- C7: recurrence validation boundary. A present recurrence strictly below
24 hours fails with the invalid-settings error; exactly 24 hours or more
succeeds (when the cleanup-time gate passes) and is passed through; an
absent recurrence does not fail and resolves to the 24-hour default. -/
theorem C7_recurrence_boundary (r : Nat) (ma : Option Nat) (ct : Option String) (e : Bool) :
    (r < Duration.from_secs (60 * 60 * 24) →
      (check_settings_and_populate (ImagePruneSettings.new (some r) ma ct e)).2 =
        Except.error (EdgedError.from_err "invalid settings provided in config"
          "cleanup recurrence cannot be less than 1 day")) ∧
    (Duration.from_secs (60 * 60 * 24) ≤ r → cleanup_time_ok ct →
      (check_settings_and_populate (ImagePruneSettings.new (some r) ma ct e)).2 =
        Except.ok (ImagePruneSettings.new (some r)
          (some (ma.getD (Duration.from_secs DEFAULT_MIN_AGE_IN_SECS)))
          (some DEFAULT_CLEANUP_TIME) e)) ∧
    (cleanup_time_ok ct →
      (check_settings_and_populate (ImagePruneSettings.new none ma ct e)).2 =
        Except.ok (ImagePruneSettings.new
          (some (Duration.from_secs DEFAULT_RECURRENCE_IN_SECS))
          (some (ma.getD (Duration.from_secs DEFAULT_MIN_AGE_IN_SECS)))
          (some DEFAULT_CLEANUP_TIME) e)) := by
  refine ⟨?_, ?_, ?_⟩
  · intro hr
    rw [check_recurrence_err r ma ct e hr]
  · intro hge hct
    rw [check_ok_value (some r) ma ct e (Or.inr ⟨r, rfl, hge⟩) hct]
    rfl
  · intro hct
    rw [check_ok_value none ma ct e (Or.inl rfl) hct]
    rfl

theorem C7_recurrence_boundary_check :
    (check_settings_and_populate (ImagePruneSettings.new
        (some (Duration.from_secs (60 * 60 * 24))) none none true)).2 =
      Except.ok (ImagePruneSettings.new (some (Duration.from_secs (60 * 60 * 24)))
        (some (Duration.from_secs DEFAULT_MIN_AGE_IN_SECS))
        (some DEFAULT_CLEANUP_TIME) true) ∧
    (check_settings_and_populate (ImagePruneSettings.new (some 0) none none true)).2 =
      Except.error (EdgedError.from_err "invalid settings provided in config"
        "cleanup recurrence cannot be less than 1 day") := by
  constructor
  · exact (C7_recurrence_boundary (Duration.from_secs (60 * 60 * 24)) none none
      true).2.1 (Nat.le_refl _) (Or.inl rfl)
  · exact (C7_recurrence_boundary 0 none none true).1 (by decide)


/-- C6: validation is only a pass-or-fail gate. On every steady-state run
the GC bookkeeping constructor and the maintenance loop receive exactly the
original pre-validation settings, the enabled decision is taken on the
original settings, and no consumer ever receives any other settings value
(in particular not the normalized value the validator returned). -/
theorem C6_validation_gate_only (env : Env) (s : Settings) (gc : ImagePruneSettings)
    (h : env.reachesSelect s)
    (hgc : s.image_garbage_collection.getD defaults_gc = gc) :
    Event.imagePruneDataNew gc ∈ (run env).2 ∧
    (gc.is_enabled = true → Event.imageGcStart gc ∈ (run env).2) ∧
    (gc.is_enabled = false → ∀ x, Event.imageGcStart x ∉ (run env).2) ∧
    (∀ x, Event.imagePruneDataNew x ∈ (run env).2 → x = gc) ∧
    (∀ x, Event.imageGcStart x ∈ (run env).2 → x = gc) := by
  subst hgc
  cases hen : (s.image_garbage_collection.getD defaults_gc).is_enabled
  · rcases hw : env.watchdog_alone with e | a
    · rw [run_disabled_watchdog_err env s e h hen hw]
      refine ⟨by simp, by simp [hen], ?_, ?_, ?_⟩
      · intro _ x hx
        simp only [List.mem_append, List.mem_cons, List.not_mem_nil, or_false] at hx
        rcases hx with hx | hx | hx | hx
        · exact absurd (gcInfoEvents_only_info s _ hx) (by simp)
        · exact absurd hx (by simp)
        · exact absurd hx (by simp)
        · exact absurd hx (by simp)
      · intro x hx
        simp only [List.mem_append, List.mem_cons, List.not_mem_nil, or_false] at hx
        rcases hx with hx | hx | hx | hx
        · exact absurd (gcInfoEvents_only_info s _ hx) (by simp)
        · simpa using hx
        · exact absurd hx (by simp)
        · exact absurd hx (by simp)
      · intro x hx
        simp only [List.mem_append, List.mem_cons, List.not_mem_nil, or_false] at hx
        rcases hx with hx | hx | hx | hx
        · exact absurd (gcInfoEvents_only_info s _ hx) (by simp)
        · exact absurd hx (by simp)
        · exact absurd hx (by simp)
        · exact absurd hx (by simp)
    · rw [run_disabled_watchdog_ok env s a h hen hw]
      refine ⟨by simp, by simp [hen], ?_, ?_, ?_⟩
      · intro _ x hx
        simp only [List.mem_append, List.mem_cons, List.not_mem_nil, or_false] at hx
        rcases hx with (hx | hx | hx | hx) | hx
        · exact absurd (gcInfoEvents_only_info s _ hx) (by simp)
        · exact absurd hx (by simp)
        · exact absurd hx (by simp)
        · exact absurd hx (by simp)
        · exact absurd hx (sd_not_mem_gcstart env _ a x)
      · intro x hx
        simp only [List.mem_append, List.mem_cons, List.not_mem_nil, or_false] at hx
        rcases hx with (hx | hx | hx | hx) | hx
        · exact absurd (gcInfoEvents_only_info s _ hx) (by simp)
        · simpa using hx
        · exact absurd hx (by simp)
        · exact absurd hx (by simp)
        · exact absurd hx (sd_not_mem_prune env _ a x)
      · intro x hx
        simp only [List.mem_append, List.mem_cons, List.not_mem_nil, or_false] at hx
        rcases hx with (hx | hx | hx | hx) | hx
        · exact absurd (gcInfoEvents_only_info s _ hx) (by simp)
        · exact absurd hx (by simp)
        · exact absurd hx (by simp)
        · exact absurd hx (by simp)
        · exact absurd hx (sd_not_mem_gcstart env _ a x)
  · have hxen : (s.image_garbage_collection.getD defaults_gc).is_enabled = true := hen
    rcases hr : env.race with wr | gr
    · rcases hw2 : wr with e | a
      · subst hw2
        rw [run_enabled_watchdog_err env s e h hxen hr]
        refine ⟨by simp, by simp, ?_, ?_, ?_⟩
        · intro hfalse
          exact absurd hfalse (by simp [hxen])
        · intro x hx
          simp only [List.mem_append, List.mem_cons, List.not_mem_nil, or_false] at hx
          rcases hx with hx | hx | hx | hx | hx
          · exact absurd (gcInfoEvents_only_info s _ hx) (by simp)
          · simpa using hx
          · exact absurd hx (by simp)
          · exact absurd hx (by simp)
          · exact absurd hx (by simp)
        · intro x hx
          simp only [List.mem_append, List.mem_cons, List.not_mem_nil, or_false] at hx
          rcases hx with hx | hx | hx | hx | hx
          · exact absurd (gcInfoEvents_only_info s _ hx) (by simp)
          · exact absurd hx (by simp)
          · exact absurd hx (by simp)
          · simpa using hx
          · exact absurd hx (by simp)
      · subst hw2
        rw [run_enabled_watchdog_ok env s a h hxen hr]
        refine ⟨by simp, by simp, ?_, ?_, ?_⟩
        · intro hfalse
          exact absurd hfalse (by simp [hxen])
        · intro x hx
          simp only [List.mem_append, List.mem_cons, List.not_mem_nil, or_false] at hx
          rcases hx with (hx | hx | hx | hx | hx) | hx
          · exact absurd (gcInfoEvents_only_info s _ hx) (by simp)
          · simpa using hx
          · exact absurd hx (by simp)
          · exact absurd hx (by simp)
          · exact absurd hx (by simp)
          · exact absurd hx (sd_not_mem_prune env _ a x)
        · intro x hx
          simp only [List.mem_append, List.mem_cons, List.not_mem_nil, or_false] at hx
          rcases hx with (hx | hx | hx | hx | hx) | hx
          · exact absurd (gcInfoEvents_only_info s _ hx) (by simp)
          · exact absurd hx (by simp)
          · exact absurd hx (by simp)
          · simpa using hx
          · exact absurd hx (by simp)
          · exact absurd hx (sd_not_mem_gcstart env _ a x)
    · rw [run_enabled_gc_first env s gr h hxen hr]
      refine ⟨by simp, by simp, ?_, ?_, ?_⟩
      · intro hfalse
        exact absurd hfalse (by simp [hxen])
      · intro x hx
        simp only [List.mem_append, List.mem_cons, List.not_mem_nil, or_false] at hx
        rcases hx with hx | hx | hx | hx | hx
        · exact absurd (gcInfoEvents_only_info s _ hx) (by simp)
        · simpa using hx
        · exact absurd hx (by simp)
        · exact absurd hx (by simp)
        · exact absurd hx (by simp)
      · intro x hx
        simp only [List.mem_append, List.mem_cons, List.not_mem_nil, or_false] at hx
        rcases hx with hx | hx | hx | hx | hx
        · exact absurd (gcInfoEvents_only_info s _ hx) (by simp)
        · exact absurd hx (by simp)
        · exact absurd hx (by simp)
        · simpa using hx
        · exact absurd hx (by simp)

theorem C6_validation_gate_only_check :
    Event.imagePruneDataNew gcCustom ∈ (run envCustom).2 ∧
    Event.imageGcStart gcCustom ∈ (run envCustom).2 ∧
    (check_settings_and_populate gcCustom).2 ≠ Except.ok gcCustom := by
  have h := C6_validation_gate_only envCustom sCustom gcCustom
    ⟨rfl, by decide, rfl, rfl, rfl⟩ rfl
  exact ⟨h.1, h.2.1 rfl, by decide⟩


/-- C8: validation failure is fatal with the fixed configuration-error exit
code. When the loaded settings carry a GC section that fails validation, run
exits the process with exitcode CONFIG (78) immediately after the validator:
the trace is exactly the single error line the validator logged, with no GC
bookkeeping construction, no module runtime construction, no maintenance
loop, and no retry. -/
theorem C8_validation_fatal (env : Env) (s : Settings) (gc : ImagePruneSettings)
    (h1 : startup_prelude env = Except.ok s)
    (hgc : s.image_garbage_collection = some gc)
    (hfail : is_ok (check_settings_and_populate gc).2 = false) :
    run env = (RunOutcome.exited exitcode_CONFIG,
      (check_settings_and_populate gc).1.map Event.validatorLoggedError) ∧
    exitcode_CONFIG = 78 ∧
    (check_settings_and_populate gc).1.length = 1 ∧
    (∀ x, Event.imagePruneDataNew x ∉ (run env).2) ∧
    Event.makeRuntime ∉ (run env).2 ∧
    (∀ x, Event.imageGcStart x ∉ (run env).2) := by
  have hget : s.image_garbage_collection.getD defaults_gc = gc := by rw [hgc]; rfl
  have hrun := run_validation_failure env s h1 (by rw [hget]; exact hfail)
  rw [hget] at hrun
  have hinfo : gcInfoEvents s = [] := by simp [gcInfoEvents, hgc]
  rw [hinfo] at hrun
  simp only [List.nil_append] at hrun
  refine ⟨hrun, rfl, check_fail_logs gc hfail, ?_, ?_, ?_⟩
  · intro x hx
    rw [hrun] at hx
    simp only [List.mem_map] at hx
    obtain ⟨line, _, hline⟩ := hx
    exact absurd hline (by simp)
  · intro hx
    rw [hrun] at hx
    simp only [List.mem_map] at hx
    obtain ⟨line, _, hline⟩ := hx
    exact absurd hline (by simp)
  · intro x hx
    rw [hrun] at hx
    simp only [List.mem_map] at hx
    obtain ⟨line, _, hline⟩ := hx
    exact absurd hline (by simp)

theorem C8_validation_fatal_check :
    (run envBad).1 = RunOutcome.exited 78 ∧
    (check_settings_and_populate badGc).1.length = 1 := by
  have h := C8_validation_fatal envBad sBad badGc rfl rfl (by decide)
  exact ⟨by rw [h.1]; rfl, h.2.2.1⟩

/-- C9: with garbage collection disabled in the effective settings, only the
health-supervision watchdog runs: the maintenance loop is never started, the
watchdog start appears in the trace, and when the watchdog finishes with an
action that action is the shutdown reason driving the shutdown sequence. -/
theorem C9_gc_disabled (env : Env) (s : Settings)
    (h : env.reachesSelect s)
    (hdis : (s.image_garbage_collection.getD defaults_gc).is_enabled = false) :
    Event.watchdogStart ∈ (run env).2 ∧
    (∀ x, Event.imageGcStart x ∉ (run env).2) ∧
    (∀ a, env.watchdog_alone = Except.ok a →
      Event.shutdownReasonSet a ∈ (run env).2 ∧
      (run env).1 = (shutdown_sequence env (s.homedir ++ "/cache") a).1) := by
  refine ⟨?_, ?_, ?_⟩
  · rcases hw : env.watchdog_alone with e | a
    · rw [run_disabled_watchdog_err env s e h hdis hw]
      simp
    · rw [run_disabled_watchdog_ok env s a h hdis hw]
      simp
  · intro x
    rcases hw : env.watchdog_alone with e | a
    · rw [run_disabled_watchdog_err env s e h hdis hw]
      intro hx
      simp only [List.mem_append, List.mem_cons, List.not_mem_nil, or_false] at hx
      rcases hx with hx | hx | hx | hx
      · exact absurd (gcInfoEvents_only_info s _ hx) (by simp)
      · exact absurd hx (by simp)
      · exact absurd hx (by simp)
      · exact absurd hx (by simp)
    · rw [run_disabled_watchdog_ok env s a h hdis hw]
      intro hx
      simp only [List.mem_append, List.mem_cons, List.not_mem_nil, or_false] at hx
      rcases hx with (hx | hx | hx | hx) | hx
      · exact absurd (gcInfoEvents_only_info s _ hx) (by simp)
      · exact absurd hx (by simp)
      · exact absurd hx (by simp)
      · exact absurd hx (by simp)
      · exact absurd hx (sd_not_mem_gcstart env _ a x)
  · intro a hw
    rw [run_disabled_watchdog_ok env s a h hdis hw]
    refine ⟨?_, rfl⟩
    simp only [List.mem_append]
    exact Or.inr (sd_mem_reason env _ a)

theorem C9_gc_disabled_check :
    Event.watchdogStart ∈ (run envDisabled).2 ∧
    (∀ x, Event.imageGcStart x ∉ (run envDisabled).2) ∧
    (run envDisabled).1 = RunOutcome.ok := by
  have h := C9_gc_disabled envDisabled sDisabled ⟨rfl, by decide, rfl, rfl, rfl⟩ rfl
  refine ⟨h.1, h.2.1, ?_⟩
  rw [(h.2.2 WatchdogAction.signal rfl).2]
  rfl


/-- C10: when the configuration has no image garbage collection section, the
effective settings are the compiled-in defaults, which have garbage
collection enabled with a 24-hour recurrence, a 7-day minimum age and the
00:00 cleanup time; consequently, on the steady-state path the background
maintenance loop is started (rather than skipped) and the missing-section
informational line is logged. -/
theorem C10_defaults_enabled (env : Env) (s : Settings)
    (h : env.reachesSelect s)
    (hn : s.image_garbage_collection = none) :
    s.image_garbage_collection.getD defaults_gc = defaults_gc ∧
    defaults_gc.is_enabled = true ∧
    defaults_gc.cleanup_recurrence = some (Duration.from_secs (60 * 60 * 24)) ∧
    defaults_gc.image_age_cleanup_threshold =
      some (Duration.from_secs (60 * 60 * 24 * 7)) ∧
    defaults_gc.cleanup_time = some "00:00" ∧
    Event.logInfoNoGcConfig ∈ (run env).2 ∧
    Event.imageGcStart defaults_gc ∈ (run env).2 := by
  have hget : s.image_garbage_collection.getD defaults_gc = defaults_gc := by
    rw [hn]
    rfl
  have hen : (s.image_garbage_collection.getD defaults_gc).is_enabled = true := by
    rw [hget]
    rfl
  have hinfo : gcInfoEvents s = [Event.logInfoNoGcConfig] := by
    simp [gcInfoEvents, hn]
  refine ⟨hget, rfl, rfl, rfl, rfl, ?_, ?_⟩
  · rcases hr : env.race with wr | gr
    · rcases hw2 : wr with e | a
      · subst hw2
        rw [run_enabled_watchdog_err env s e h hen hr, hinfo]
        simp
      · subst hw2
        rw [run_enabled_watchdog_ok env s a h hen hr, hinfo]
        simp
    · rw [run_enabled_gc_first env s gr h hen hr, hinfo]
      simp
  · rcases hr : env.race with wr | gr
    · rcases hw2 : wr with e | a
      · subst hw2
        rw [run_enabled_watchdog_err env s e h hen hr, hget]
        simp
      · subst hw2
        rw [run_enabled_watchdog_ok env s a h hen hr, hget]
        simp
    · rw [run_enabled_gc_first env s gr h hen hr, hget]
      simp

theorem C10_defaults_enabled_check :
    Event.imageGcStart defaults_gc ∈ (run envBase).2 ∧
    defaults_gc.is_enabled = true := by
  have h := C10_defaults_enabled envBase sBase ⟨rfl, rfl, rfl, rfl, rfl⟩ rfl
  exact ⟨h.2.2.2.2.2.2, h.2.1⟩


end Edged
